import Mathlib

/-!
A shallow embedding of the data-loading and training-step logic of the
repository (files made/data/module.py, made/data/utils.py and
made/training/module.py), together with theorems settling a list of
claims about it.  Python integers are modelled as Int, Python floats as
exact rationals (every concrete float used in a counterexample below is
exactly representable in binary floating point, so the evaluations agree
with Python), Python None via Option, Python dicts of metric results as
association lists, and raised exceptions via Except.
-/

namespace Made

/-- Truthiness of an optional Python integer: None and 0 are falsy. -/
def optTruthy : Option Int → Bool
  | Option.none => false
  | Option.some n => n != 0

/-- Python slice endpoint normalization for a sequence of length n: negative
endpoints count from the end of the sequence, and both directions clamp into
the range from 0 to n. -/
def pyIdx (n : Nat) (i : Int) : Nat :=
  if i < 0 then ((n : Int) + i).toNat else min i.toNat n

/-- Python slicing xs[a:b] with integer endpoints and step 1. -/
def pySlice (xs : List α) (a b : Int) : List α :=
  (xs.drop (pyIdx xs.length a)).take (pyIdx xs.length b - pyIdx xs.length a)

/-- Python truncation toward zero of a rational, as the int builtin computes
on a float. -/
def pyInt (q : ℚ) : Int :=
  if q < 0 then -⌊-q⌋ else ⌊q⌋

/-- A resolved transform object.  toTensor is the torchvision ToTensor
default, registry is an object built by registry lookup of a class identifier
applied to keyword arguments, compose is a torchvision Compose of a list of
transforms, and other stands for any prebuilt callable passed through
unchanged. -/
inductive Transform where
  | toTensor
  | registry (cls : String) (args : List (String × Nat))
  | compose (ts : List Transform)
  | other (id : Nat)

/-- A transform specification: an already-built object, a dict holding a
class identifier and keyword arguments, or a list of specifications to be
composed.  The Python None case is represented one level up as Option. -/
inductive TSpec where
  | obj (t : Transform)
  | dict (cls : String) (args : List (String × Nat))
  | list (specs : List TSpec)

/-- Embedding of initialize_transforms from made/data/utils.py: a dict spec
is resolved by registry lookup of its cls entry applied to its args entry, a
list spec is resolved elementwise and composed, and any other value is
returned unchanged.  In Python a None argument is also returned unchanged;
None never reaches this function from the data module because the module
substitutes defaults first (see moduleTransform). -/
def init_transforms : TSpec → Transform
  | TSpec.obj t => t
  | TSpec.dict cls args => Transform.registry cls args
  | TSpec.list specs =>
      Transform.compose (specs.attach.map (fun s => init_transforms s.1))
decreasing_by
  simp only [TSpec.list.sizeOf_spec]
  have := List.sizeOf_lt_of_mem s.2
  omega

/-- Transform resolution as performed by the data module constructor (lines
49 to 58 of made/data/module.py): the shared spec defaults to ToTensor when
absent, the per-split spec defaults to the shared spec, and the result goes
through initialize_transforms. -/
def moduleTransform (shared split : Option TSpec) : Transform :=
  init_transforms (split.getD (shared.getD (TSpec.obj Transform.toTensor)))

/-- Observable construction data of a dataset: its length, and the shape of
the first component of its items (used only by the dims computation in
setup). -/
structure DatasetInfo where
  length : Nat
  shape : List Nat

/-- A dataset object: either prebuilt (passed in as an instance, in which
case get_dataset returns it directly and the construction parameters are
ignored), or constructed via registry lookup of a name, recording the
parameters it was constructed with. -/
inductive PyDataset where
  | prebuilt (id : Nat) (info : DatasetInfo)
  | constructed (name : String) (train : Option Bool) (transform : Transform)
      (args : List (String × Nat)) (info : DatasetInfo)

def PyDataset.info : PyDataset → DatasetInfo
  | PyDataset.prebuilt _ i => i
  | PyDataset.constructed _ _ _ _ i => i

def PyDataset.length (d : PyDataset) : Nat := d.info.length

/-- A dataset reference: a prebuilt instance or a registry name. -/
inductive DatasetRef where
  | inst (d : PyDataset)
  | name (s : String)

/-- The external dataset registry, modelled by the observable data of the
dataset that a registered class constructs from the train flag and keyword
arguments.  Lookup failure for unknown names is orthogonal to every claim
and not modelled. -/
abbrev Registry := String → Option Bool → List (String × Nat) → DatasetInfo

/-- DEDataModule.get_dataset: an instance is returned directly (construction
parameters ignored), otherwise the registry class named by the reference is
constructed with the given parameters. -/
def get_dataset (reg : Registry) (ds : DatasetRef) (train : Option Bool)
    (transform : Transform) (args : List (String × Nat)) : PyDataset :=
  match ds with
  | DatasetRef.inst d => d
  | DatasetRef.name s =>
      PyDataset.constructed s train transform args (reg s train args)

/-- The val_size argument: Python None, an int, or a float (modelled as an
exact rational). -/
inductive ValSize where
  | none
  | int (c : Int)
  | float (f : ℚ)

/-- Python truthiness of a val_size value: None, 0 and 0.0 are falsy. -/
def ValSize.truthy : ValSize → Bool
  | ValSize.none => false
  | ValSize.int c => c != 0
  | ValSize.float f => f != 0

/-- The val_size validation of the constructor (line 68 of
made/data/module.py): None and any int are accepted, a float only when it is
strictly less than 1. -/
def validValSize : ValSize → Bool
  | ValSize.none => true
  | ValSize.int _ => true
  | ValSize.float f => decide (f < 1)

/-- Python dict merge of two keyword-argument dicts, entries of the second
overriding entries of the first. -/
def mergeArgs (a b : List (String × Nat)) : List (String × Nat) :=
  a.filter (fun p => b.all (fun q => q.1 != p.1)) ++ b

/-- Per-split override resolution: the per-split value when it is not None,
else the shared one. -/
def effBS (specific shared : Option Int) : Option Int :=
  match specific with
  | Option.some v => Option.some v
  | Option.none => shared

/-- The fields of a constructed DEDataModule that later behaviour reads. -/
structure DEDataModule where
  train_transforms : Transform
  val_transforms : Transform
  test_transforms : Transform
  seed : Nat
  train_dataset : DatasetRef
  val_dataset : DatasetRef
  test_dataset : DatasetRef
  val_size : ValSize
  train_dataset_args : List (String × Nat)
  val_dataset_args : List (String × Nat)
  test_dataset_args : List (String × Nat)
  train_batch_size : Option Int
  val_batch_size : Option Int
  test_batch_size : Option Int
  train_shuffle : Bool
  val_shuffle : Bool
  test_shuffle : Bool
  train_num_workers : Nat
  val_num_workers : Nat
  test_num_workers : Nat

/-- The constructor arguments of DEDataModule with their Python default
values.  Extra keyword arguments are accepted and ignored by the Python
constructor and are not modelled. -/
structure InitArgs where
  dataset : DatasetRef
  dataset_args : Option (List (String × Nat)) := Option.none
  train_dataset : Option DatasetRef := Option.none
  train_dataset_args : Option (List (String × Nat)) := Option.none
  val_size : ValSize := ValSize.none
  val_dataset : Option DatasetRef := Option.none
  val_dataset_args : Option (List (String × Nat)) := Option.none
  test_dataset : Option DatasetRef := Option.none
  test_dataset_args : Option (List (String × Nat)) := Option.none
  transforms : Option TSpec := Option.none
  train_transforms : Option TSpec := Option.none
  val_transforms : Option TSpec := Option.none
  test_transforms : Option TSpec := Option.none
  batch_size : Option Int := Option.some 16
  train_batch_size : Option Int := Option.none
  val_batch_size : Option Int := Option.none
  test_batch_size : Option Int := Option.none
  train_shuffle : Bool := true
  val_shuffle : Bool := false
  test_shuffle : Bool := false
  num_workers : Nat := 0
  train_num_workers : Option Nat := Option.none
  val_num_workers : Option Nat := Option.none
  test_num_workers : Option Nat := Option.none
  seed : Nat := 0

/-- Embedding of DEDataModule.__init__: resolves transforms with defaulting,
validates val_size, defaults the per-split dataset references, merges dataset
argument dicts, resolves per-split batch sizes, shuffle flags and worker
counts, and validates that at least one effective batch size is truthy.  The
two assert statements are modelled as errors, in source order (transform
resolution, which precedes the first assert in Python, is total in this
model, so performing the checks first is equivalent).  The registry is not
consulted at construction time. -/
def DEDataModule.init (a : InitArgs) : Except String DEDataModule :=
  if validValSize a.val_size = false then
    Except.error "invalid validation size is provided (either int, float (between zero and one) or None)"
  else
    let tbs := effBS a.train_batch_size a.batch_size
    let vbs := effBS a.val_batch_size a.batch_size
    let sbs := effBS a.test_batch_size a.batch_size
    if (optTruthy tbs || optTruthy vbs || optTruthy sbs) = false then
      Except.error "at least one of batch_sizes should be a positive number"
    else
      Except.ok
        { train_transforms := moduleTransform a.transforms a.train_transforms
          val_transforms := moduleTransform a.transforms a.val_transforms
          test_transforms := moduleTransform a.transforms a.test_transforms
          seed := a.seed
          train_dataset := a.train_dataset.getD a.dataset
          val_dataset := a.val_dataset.getD a.dataset
          test_dataset := a.test_dataset.getD a.dataset
          val_size := a.val_size
          train_dataset_args :=
            mergeArgs (a.dataset_args.getD []) (a.train_dataset_args.getD [])
          val_dataset_args :=
            mergeArgs (a.dataset_args.getD []) (a.val_dataset_args.getD [])
          test_dataset_args :=
            mergeArgs (a.dataset_args.getD []) (a.test_dataset_args.getD [])
          train_batch_size := tbs
          val_batch_size := vbs
          test_batch_size := sbs
          train_shuffle := a.train_shuffle
          val_shuffle := a.val_shuffle
          test_shuffle := a.test_shuffle
          train_num_workers := a.train_num_workers.getD a.num_workers
          val_num_workers := a.val_num_workers.getD a.num_workers
          test_num_workers := a.test_num_workers.getD a.num_workers }

/-- True exactly on the ok outcome of a construction or setup call. -/
def isOkE : Except String α → Bool
  | Except.ok _ => true
  | Except.error _ => false

/-- Modelled from the spec: torch randperm driven by an explicitly seeded
generator, an external collaborator.  The spec only relies on it being a
deterministic permutation of the indices 0 to n - 1 that is a pure function
of the generator state and n; the concrete pseudo-random stream of torch is
outside this repository, so an explicit simple permutation is used here. -/
def torchRandperm (gen n : Nat) : List Nat :=
  (List.range n).map (fun i => (i + gen) % n)

/-- Partial sums, as itertools accumulate computes them. -/
def pyAccumulate : List Int → List Int
  | [] => []
  | x :: xs => x :: (pyAccumulate xs).map (fun y => x + y)

/-- A cached data split: the whole resolved dataset, or a torch Subset of a
dataset given by a list of indices into it. -/
inductive SplitData where
  | whole (d : PyDataset)
  | subset (d : PyDataset) (indices : List Nat)

/-- The length of a cached split: a Subset has as many samples as indices. -/
def SplitData.length : SplitData → Nat
  | SplitData.whole d => d.length
  | SplitData.subset _ idx => idx.length

/-- The shape of the first component of item 0 of a split (both a whole
dataset and a Subset of it yield items of the underlying dataset). -/
def SplitData.shape : SplitData → List Nat
  | SplitData.whole d => d.info.shape
  | SplitData.subset d _ => d.info.shape

/-- Embedding of torch.utils.data.random_split: after checking that the
requested lengths sum to the dataset length, the permuted indices are cut by
Python slices indices[offset - length : offset] over the partial sums of the
lengths.  The generator argument overrides the ambient default generator
when present, exactly as in torch. -/
def random_split (d : PyDataset) (lengths : List Int)
    (generator : Option Nat) (defaultGen : Nat) : Except String (List SplitData) :=
  if lengths.sum != (d.length : Int) then
    Except.error "Sum of input lengths does not equal the length of the input dataset!"
  else
    let gen := generator.getD defaultGen
    let indices := torchRandperm gen d.length
    Except.ok
      (((pyAccumulate lengths).zip lengths).map
        (fun p => SplitData.subset d (pySlice indices (p.1 - p.2) p.1)))

/-- The training dataset as resolved at the start of the fit branch of setup
(lines 129 to 134 of made/data/module.py): constructed from the train
reference with the train flag, the resolved train transforms, and the merged
train dataset arguments. -/
def trainDS (reg : Registry) (m : DEDataModule) : PyDataset :=
  get_dataset reg m.train_dataset (Option.some true) m.train_transforms
    m.train_dataset_args

/-- The train split length computed by setup: for an int val_size the
dataset length minus it, otherwise the int builtin applied to the product of
the dataset length and one minus the fraction.  The None case never runs: the
computation sits under a guard requiring val_size to be truthy. -/
def trainLen (n : Nat) : ValSize → Int
  | ValSize.none => (n : Int)
  | ValSize.int c => (n : Int) - c
  | ValSize.float f => pyInt ((n : ℚ) * (1 - f))

/-- The train_data and val_data assignments after the fit branch of setup. -/
structure FitAssign where
  train_data : Option SplitData
  val_data : Option SplitData

/-- Embedding of the data assignments of the fit branch of setup (lines 129
to 154 of made/data/module.py), run when the fit guard has already passed.
The ambient argument is the state of the ambient torch default generator; the
code seeds a fresh generator with the configured seed and passes it to
random_split explicitly.  The branch structure mirrors the Python source: a
falsy val_size assigns the whole dataset to train_data; a truthy val_size
together with a truthy val batch size performs the random split; otherwise a
truthy val batch size resolves the validation dataset independently. -/
def setup_fit_assign (reg : Registry) (m : DEDataModule) (ambient : Nat) :
    Except String FitAssign :=
  let dataset := trainDS reg m
  let a1 : FitAssign :=
    if m.val_size.truthy = false then
      { train_data := Option.some (SplitData.whole dataset), val_data := Option.none }
    else
      { train_data := Option.none, val_data := Option.none }
  if m.val_size.truthy && optTruthy m.val_batch_size then
    let tl := trainLen dataset.length m.val_size
    match random_split dataset [tl, (dataset.length : Int) - tl]
        (Option.some m.seed) ambient with
    | Except.error e => Except.error e
    | Except.ok [td, vd] =>
        Except.ok { train_data := Option.some td, val_data := Option.some vd }
    | Except.ok _ => Except.error "ValueError: values to unpack"
  else if optTruthy m.val_batch_size then
    Except.ok
      { train_data := a1.train_data
        val_data := Option.some (SplitData.whole
          (get_dataset reg m.val_dataset Option.none m.val_transforms
            m.val_dataset_args)) }
  else
    Except.ok a1

/-- The observable outcome of a setup call: the cached data assignments and
the dims attribute when it was computed. -/
structure SetupOut where
  assign : FitAssign
  dims : Option (List Nat)

/-- Embedding of DEDataModule.setup for the fit stage: guarded by the stage
name and a truthy train batch size, it performs the data assignments and then
computes dims by indexing train_data, which raises when train_data is still
None (no branch assigned it) and when the train split is empty.  The test
branch of setup concerns no claim and is elided; any stage other than fit is
a no-op here. -/
def setup (reg : Registry) (m : DEDataModule) (stage : Option String)
    (ambient : Nat) : Except String SetupOut :=
  if stage == Option.some "fit" && optTruthy m.train_batch_size then
    match setup_fit_assign reg m ambient with
    | Except.error e => Except.error e
    | Except.ok a =>
        match a.train_data with
        | Option.none =>
            Except.error "TypeError: NoneType object is not subscriptable"
        | Option.some td =>
            if td.length == 0 then
              Except.error "IndexError: index 0 is out of bounds"
            else
              Except.ok { assign := a, dims := Option.some td.shape }
  else
    Except.ok { assign := { train_data := Option.none, val_data := Option.none }
                dims := Option.none }

/-- A tensor, modelled by its shape and flat data. -/
structure Tensor where
  shape : List Nat
  data : List ℚ

/-- The reshape of the training step for MADE models: keep the batch
dimension, flatten the rest. -/
def Tensor.flatten2d (t : Tensor) : Tensor :=
  { shape := [t.shape.headD 0, (t.shape.drop 1).prod], data := t.data }

/-- A batch as handed to the step: a bare tensor, or a tuple or list whose
first element is the input tensor. -/
inductive Batch where
  | plain (t : Tensor)
  | seq (head : Tensor) (rest : List Tensor)

/-- Input extraction of the step: the first element of a tuple or list batch,
else the batch itself. -/
def Batch.inputs : Batch → Tensor
  | Batch.plain t => t
  | Batch.seq h _ => h

/-- The results dict produced by a step, as an association list from metric
names to scalar values.  All keys are distinct whenever the criterion output
has distinct keys. -/
abbrev Results := List (String × ℚ)

/-- The keys of a results dict, in insertion order. -/
def keysOf (d : Results) : List String := d.map Prod.fst

/-- Python dict lookup. -/
def dictGet (d : Results) (k : String) : Option ℚ :=
  (d.find? (fun p => p.1 == k)).map Prod.snd

/-- Python dict assignment: overwrite in place when the key exists, else
append the new entry at the end. -/
def dictSet (d : Results) (k : String) (v : ℚ) : Results :=
  if d.any (fun p => p.1 == k) then
    d.map (fun p => if p.1 == k then (k, v) else p)
  else
    d ++ [(k, v)]

/-- The trainer state the step reads: whether the resolved model is a MADE
instance, the loss criterion and the optional attacker.  Criterion and
attacker are external collaborators; they are modelled as opaque functions
of the input tensor, with the fixed model folded in.  The attacker returns
the perturbed inputs together with the initial and final loss (the
return_loss form used by the step). -/
structure MADETrainer where
  modelIsMADE : Bool
  criterion : Tensor → Results
  attacker : Option (Tensor → Tensor × ℚ × ℚ)

/-- The input tensor the step feeds to attacker and criterion: the extracted
batch input, flattened when the model is a MADE instance. -/
def stepInputs (tr : MADETrainer) (batch : Batch) : Tensor :=
  let inputs := batch.inputs
  if tr.modelIsMADE then inputs.flatten2d else inputs

/-- The metric names the step qualifies with the split name, with the on_step
and on_epoch flags as logged. -/
structure StepOut where
  grad_enabled : Bool
  results : Results
  logs : List (String × ℚ × Bool × Bool)
  ret : Option ℚ

/-- Embedding of MADETrainer.step (made/training/module.py lines 44 to 78):
extract the inputs, flatten them for MADE models, enable gradients exactly
off the validation split, run the attacker then the criterion on the
perturbed inputs and append the three adversarial metrics when an attacker
is configured and the split is not validation, otherwise run the criterion
on the clean inputs; log every result under a split-qualified name with
on_step for training and on_epoch for validation, and return the loss entry
for a non-validation split (a missing loss key raises KeyError) and None for
validation. -/
def MADETrainer.step (tr : MADETrainer) (batch : Batch) (nm : String) :
    Except String StepOut :=
  let is_val := nm == "val"
  let inputs := stepInputs tr batch
  let results :=
    match tr.attacker with
    | Option.some atk =>
        if is_val = false then
          let a := atk inputs
          let r := tr.criterion a.1
          dictSet (dictSet (dictSet r "adv/init_loss" a.2.1)
            "adv/final_loss" a.2.2) "adv/loss_diff" (a.2.2 - a.2.1)
        else tr.criterion inputs
    | Option.none => tr.criterion inputs
  let logs := results.map (fun p => (p.1 ++ "/" ++ nm, p.2, !is_val, is_val))
  if is_val then
    Except.ok { grad_enabled := !is_val, results := results, logs := logs
                ret := Option.none }
  else
    match dictGet results "loss" with
    | Option.some l =>
        Except.ok { grad_enabled := !is_val, results := results, logs := logs
                    ret := Option.some l }
    | Option.none => Except.error "KeyError: loss"

/-- The three adversarial auxiliary metric names, in the order the step
inserts them. -/
def advKeys : List String := ["adv/init_loss", "adv/final_loss", "adv/loss_diff"]

/-- The results dict built by the attack path of the step: the criterion on
the perturbed inputs, then the three adversarial entries assigned in order.
This names the dict the step builds internally, for use in statements. -/
def stepAttackResults (tr : MADETrainer) (batch : Batch)
    (atk : Tensor → Tensor × ℚ × ℚ) : Results :=
  dictSet (dictSet (dictSet (tr.criterion (atk (stepInputs tr batch)).1)
    "adv/init_loss" (atk (stepInputs tr batch)).2.1)
    "adv/final_loss" (atk (stepInputs tr batch)).2.2)
    "adv/loss_diff"
    ((atk (stepInputs tr batch)).2.2 - (atk (stepInputs tr batch)).2.1)

/-- The length of the cached train split of a setup outcome, when any. -/
def assignTrainLen : Except String FitAssign → Option Nat
  | Except.ok a => a.train_data.map SplitData.length
  | Except.error _ => Option.none

/-- The length of the cached validation split of a setup outcome, when any. -/
def assignValLen : Except String FitAssign → Option Nat
  | Except.ok a => a.val_data.map SplitData.length
  | Except.error _ => Option.none

/-- A concrete registry for witnesses: every registered dataset class
constructs a dataset of length 10 whose items have shape 3 by 4. -/
def regTen : Registry := fun _ _ _ => { length := 10, shape := [3, 4] }

/-- A concrete data module for witnesses, parameterized by the validation
size and the effective validation batch size; the validation transforms and
the validation dataset reference differ from the training ones so that the
theorems can tell the two resolution paths apart. -/
def baseModule (vs : ValSize) (vbs : Option Int) : DEDataModule :=
  { train_transforms := Transform.toTensor
    val_transforms := Transform.other 7
    test_transforms := Transform.toTensor
    seed := 0
    train_dataset := DatasetRef.name "mnist"
    val_dataset := DatasetRef.name "cifar"
    test_dataset := DatasetRef.name "mnist"
    val_size := vs
    train_dataset_args := []
    val_dataset_args := [("k", 1)]
    test_dataset_args := []
    train_batch_size := Option.some 16
    val_batch_size := vbs
    test_batch_size := Option.some 16
    train_shuffle := true
    val_shuffle := false
    test_shuffle := false
    train_num_workers := 0
    val_num_workers := 0
    test_num_workers := 0 }

/-- The module of the fraction counterexample: validation size 0.25, a float
that is exactly representable in binary floating point, over a length 10
training dataset. -/
def mFrac : DEDataModule := baseModule (ValSize.float (1/4)) (Option.some 16)

/-- A concrete trainer for witnesses: the model is not a MADE instance, the
criterion reports a single loss entry, and the attacker returns the inputs
unchanged with initial loss 2 and final loss 5. -/
def trA : MADETrainer :=
  { modelIsMADE := false
    criterion := fun _ => [("loss", 1)]
    attacker := Option.some (fun t => (t, 2, 5)) }

/-- A concrete one-tensor batch for witnesses. -/
def batchA : Batch := Batch.plain { shape := [1], data := [0] }

/-- Constructor arguments with validation size 1.0, a float that is not less
than one. -/
def argsFloatOne : InitArgs :=
  { dataset := DatasetRef.name "mnist", val_size := ValSize.float 1 }

/-- Constructor arguments with validation size 2, an integer. -/
def argsInt2 : InitArgs :=
  { dataset := DatasetRef.name "mnist", val_size := ValSize.int 2 }

/-- Constructor arguments in which the shared batch size is None and no
per-split batch size is given, so all three effective batch sizes are
falsy. -/
def argsNoBatch : InitArgs :=
  { dataset := DatasetRef.name "mnist", batch_size := Option.none }

theorem pyIdx_le (n : Nat) (i : Int) : pyIdx n i ≤ n := by
  unfold pyIdx
  split
  · omega
  · exact min_le_right _ _

theorem pySlice_length (xs : List α) (a b : Int) :
    (pySlice xs a b).length = pyIdx xs.length b - pyIdx xs.length a := by
  have h := pyIdx_le xs.length b
  simp only [pySlice, List.length_take, List.length_drop]
  omega

theorem pyIdx_zero (n : Nat) : pyIdx n 0 = 0 := by
  simp [pyIdx]

theorem pyIdx_cast_self (n : Nat) : pyIdx n (n : Int) = n := by
  simp [pyIdx]

theorem pyIdx_of_le (n : Nat) (i : Int) (h0 : 0 ≤ i) (hn : i ≤ (n : Int)) :
    (pyIdx n i : Int) = i := by
  unfold pyIdx
  split
  · omega
  · have hle : i.toNat ≤ n := by omega
    rw [min_eq_left hle]
    omega

theorem pyInt_eq_floor (q : ℚ) (h : 0 ≤ q) : pyInt q = ⌊q⌋ := by
  unfold pyInt
  rw [if_neg (not_lt.mpr h)]

theorem init_transforms_list (specs : List TSpec) :
    init_transforms (TSpec.list specs)
      = Transform.compose (specs.map init_transforms) := by
  unfold init_transforms
  rw [List.attach_map_val]

theorem torchRandperm_length (gen n : Nat) : (torchRandperm gen n).length = n := by
  simp [torchRandperm]

theorem random_split_two (d : PyDataset) (t : Int) (g dg : Nat) :
    random_split d [t, (d.length : Int) - t] (Option.some g) dg =
      Except.ok
        [SplitData.subset d (pySlice (torchRandperm g d.length) 0 t),
         SplitData.subset d (pySlice (torchRandperm g d.length) t (d.length : Int))] := by
  unfold random_split
  rw [if_neg (by simp)]
  simp only [Option.getD_some, pyAccumulate, List.map_cons, List.map_nil,
    List.zip_cons_cons, List.zip_nil_right]
  have e1 : t - t = 0 := sub_self t
  have e2 : t + ((d.length : Int) - t) - ((d.length : Int) - t) = t := by ring
  have e3 : t + ((d.length : Int) - t) = (d.length : Int) := by ring
  rw [e1, e2, e3]

theorem setup_split_eq (reg : Registry) (m : DEDataModule) (ambient : Nat)
    (h1 : m.val_size.truthy = true) (h2 : optTruthy m.val_batch_size = true) :
    setup_fit_assign reg m ambient =
      Except.ok
        { train_data := Option.some (SplitData.subset (trainDS reg m)
            (pySlice (torchRandperm m.seed (trainDS reg m).length)
              0 (trainLen (trainDS reg m).length m.val_size)))
          val_data := Option.some (SplitData.subset (trainDS reg m)
            (pySlice (torchRandperm m.seed (trainDS reg m).length)
              (trainLen (trainDS reg m).length m.val_size)
              ((trainDS reg m).length : Int))) } := by
  unfold setup_fit_assign
  rw [h1]
  simp only [Bool.false_eq_true, if_false, h2, Bool.and_self, if_true]
  rw [random_split_two]

theorem keysOf_append (d e : Results) : keysOf (d ++ e) = keysOf d ++ keysOf e := by
  simp [keysOf]

theorem dictSet_append_of_not_mem (d : Results) (k : String) (v : ℚ)
    (h : k ∉ keysOf d) : dictSet d k v = d ++ [(k, v)] := by
  unfold dictSet
  rw [if_neg]
  intro hc
  rcases List.any_eq_true.mp hc with ⟨p, hp, he⟩
  exact h (List.mem_map.mpr ⟨p, hp, eq_of_beq he⟩)

theorem dictGet_append_of_isSome (d e : Results) (k : String)
    (h : (dictGet d k).isSome = true) : dictGet (d ++ e) k = dictGet d k := by
  unfold dictGet at h ⊢
  cases hf : d.find? (fun p => p.1 == k) with
  | none => rw [hf] at h; simp at h
  | some p => rw [List.find?_append, hf]; rfl

theorem dictGet_append_of_not_mem (d e : Results) (k : String)
    (h : k ∉ keysOf d) : dictGet (d ++ e) k = dictGet e k := by
  unfold dictGet
  rw [List.find?_append]
  have hn : d.find? (fun p => p.1 == k) = Option.none := by
    rw [List.find?_eq_none]
    intro p hp he
    exact h (List.mem_map.mpr ⟨p, hp, eq_of_beq he⟩)
  rw [hn]
  rfl

theorem dictGet_singleton (k : String) (v : ℚ) :
    dictGet [(k, v)] k = Option.some v := by
  simp [dictGet]

/-- C1 (amended): when fit-stage setup performs the train/validation split
over a resolved training dataset of length n, then for an integer validation
size c with 0 ≤ c ≤ n the train split has length n − c and the validation
split has length c, and for a float fraction f with 0 ≤ f < 1 the train
split has length the truncation (floor) of n · (1 − f) — not its rounding —
and the validation split has the remainder. -/
theorem split_lengths_int_and_trunc (reg : Registry) (m : DEDataModule)
    (ambient : Nat)
    (h1 : m.val_size.truthy = true) (h2 : optTruthy m.val_batch_size = true) :
    ∃ td vd,
      setup_fit_assign reg m ambient =
        Except.ok { train_data := Option.some td, val_data := Option.some vd } ∧
      (∀ c : Int, m.val_size = ValSize.int c → 0 ≤ c →
        c ≤ ((trainDS reg m).length : Int) →
        (td.length : Int) = ((trainDS reg m).length : Int) - c ∧
        (vd.length : Int) = c) ∧
      (∀ f : ℚ, m.val_size = ValSize.float f → 0 ≤ f → f < 1 →
        (td.length : Int) = ⌊((trainDS reg m).length : ℚ) * (1 - f)⌋ ∧
        (vd.length : Int) =
          ((trainDS reg m).length : Int) -
            ⌊((trainDS reg m).length : ℚ) * (1 - f)⌋) := by
  refine ⟨_, _, setup_split_eq reg m ambient h1 h2, ?_, ?_⟩
  · intro c hc hc0 hcn
    have ht : trainLen (trainDS reg m).length m.val_size
        = ((trainDS reg m).length : Int) - c := by
      rw [hc]
      rfl
    have hle := pyIdx_le (trainDS reg m).length
      (((trainDS reg m).length : Int) - c)
    have hp := pyIdx_of_le (trainDS reg m).length
      (((trainDS reg m).length : Int) - c) (by omega) (by omega)
    constructor
    · simp only [SplitData.length, pySlice_length, torchRandperm_length,
        pyIdx_zero, ht]
      omega
    · simp only [SplitData.length, pySlice_length, torchRandperm_length,
        pyIdx_cast_self, ht]
      omega
  · intro f hf hf0 hf1
    have hx0 : (0 : ℚ) ≤ ((trainDS reg m).length : ℚ) * (1 - f) :=
      mul_nonneg (by positivity) (by linarith)
    have ht : trainLen (trainDS reg m).length m.val_size
        = ⌊((trainDS reg m).length : ℚ) * (1 - f)⌋ := by
      rw [hf]
      show pyInt (((trainDS reg m).length : ℚ) * (1 - f)) = _
      exact pyInt_eq_floor _ hx0
    have hfl0 : 0 ≤ ⌊((trainDS reg m).length : ℚ) * (1 - f)⌋ :=
      Int.floor_nonneg.mpr hx0
    have hxn : ((trainDS reg m).length : ℚ) * (1 - f)
        ≤ ((trainDS reg m).length : ℚ) :=
      mul_le_of_le_one_right (by positivity) (by linarith)
    have hfln : ⌊((trainDS reg m).length : ℚ) * (1 - f)⌋
        ≤ ((trainDS reg m).length : Int) := by
      calc ⌊((trainDS reg m).length : ℚ) * (1 - f)⌋
          ≤ ⌊((trainDS reg m).length : ℚ)⌋ := Int.floor_le_floor hxn
        _ = ((trainDS reg m).length : Int) := Int.floor_natCast _
    have hle := pyIdx_le (trainDS reg m).length
      (⌊((trainDS reg m).length : ℚ) * (1 - f)⌋)
    have hp := pyIdx_of_le (trainDS reg m).length
      (⌊((trainDS reg m).length : ℚ) * (1 - f)⌋) hfl0 hfln
    constructor
    · simp only [SplitData.length, pySlice_length, torchRandperm_length,
        pyIdx_zero, ht]
      omega
    · simp only [SplitData.length, pySlice_length, torchRandperm_length,
        pyIdx_cast_self, ht]
      omega

/-- C1 counterexample to the claim as stated: with a training dataset of
length 10 and validation size 0.25 the code truncates 10 · 0.75 = 7.5 to a
train split of length 7, while the round formula of the claim predicts 8.
The float 0.25 and all intermediate products are exactly representable in
binary floating point, so the Python evaluation matches this exact rational
one. -/
theorem split_round_counterexample :
    assignTrainLen (setup_fit_assign regTen mFrac 0) = Option.some 7 ∧
    round ((10 : ℚ) * (1 - 1/4)) = 8 ∧
    assignTrainLen (setup_fit_assign regTen mFrac 0) ≠
      Option.some (round ((10 : ℚ) * (1 - 1/4))).toNat := by
  have ha : assignTrainLen (setup_fit_assign regTen mFrac 0) = Option.some 7 := by
    have h1 : mFrac.val_size.truthy = true := by
      show (((1 : ℚ)/4 != 0) = true)
      rw [bne_iff_ne]
      norm_num
    rw [setup_split_eq regTen mFrac 0 h1 (by decide)]
    have ht : trainLen (trainDS regTen mFrac).length mFrac.val_size = 7 := by
      show pyInt ((10 : ℚ) * (1 - 1/4)) = 7
      rw [pyInt_eq_floor _ (by norm_num)]
      norm_num
    simp only [assignTrainLen, Option.map_some, SplitData.length,
      pySlice_length, torchRandperm_length, pyIdx_zero, ht]
    decide
  have hb : round ((10 : ℚ) * (1 - 1/4)) = 8 := by
    rw [round_eq]
    norm_num
  refine ⟨ha, hb, ?_⟩
  rw [ha, hb]
  decide

/-- C1 witness: with a length 10 dataset and integer validation size 3 the
split yields a train split of length 7 and a validation split of length 3. -/
theorem split_lengths_int_and_trunc_witness :
    ∃ td vd,
      setup_fit_assign regTen (baseModule (ValSize.int 3) (Option.some 16)) 0 =
        Except.ok { train_data := Option.some td, val_data := Option.some vd } ∧
      (td.length : Int) = 10 - 3 ∧ (vd.length : Int) = 3 := by
  obtain ⟨td, vd, heq, hint, hfl⟩ :=
    split_lengths_int_and_trunc regTen
      (baseModule (ValSize.int 3) (Option.some 16)) 0 (by decide) (by decide)
  obtain ⟨ha, hb⟩ := hint 3 rfl (by decide) (by decide)
  exact ⟨td, vd, heq, by rw [ha]; decide, hb⟩

/-- C2: whenever fit-stage setup performs the train/validation split for a
valid validation size, the train and validation split lengths sum exactly to
the length of the resolved training dataset. -/
theorem split_lengths_sum (reg : Registry) (m : DEDataModule) (ambient : Nat)
    (_hvalid : validValSize m.val_size = true)
    (h1 : m.val_size.truthy = true) (h2 : optTruthy m.val_batch_size = true) :
    ∃ td vd,
      setup_fit_assign reg m ambient =
        Except.ok { train_data := Option.some td, val_data := Option.some vd } ∧
      td.length + vd.length = (trainDS reg m).length := by
  refine ⟨_, _, setup_split_eq reg m ambient h1 h2, ?_⟩
  have hle := pyIdx_le (trainDS reg m).length
    (trainLen (trainDS reg m).length m.val_size)
  simp only [SplitData.length, pySlice_length, torchRandperm_length,
    pyIdx_zero, pyIdx_cast_self]
  omega

/-- C2 witness: with a length 10 dataset and integer validation size 4 the
two split lengths sum to 10. -/
theorem split_lengths_sum_witness :
    ∃ td vd,
      setup_fit_assign regTen (baseModule (ValSize.int 4) (Option.some 16)) 0 =
        Except.ok { train_data := Option.some td, val_data := Option.some vd } ∧
      td.length + vd.length = 10 := by
  obtain ⟨td, vd, heq, hsum⟩ :=
    split_lengths_sum regTen (baseModule (ValSize.int 4) (Option.some 16)) 0
      (by decide) (by decide) (by decide)
  exact ⟨td, vd, heq, by rw [hsum]; decide⟩

theorem setup_skip_eq (reg : Registry) (m : DEDataModule) (ambient : Nat)
    (h1 : m.val_size.truthy = true) (h2 : optTruthy m.val_batch_size = false) :
    setup_fit_assign reg m ambient =
      Except.ok { train_data := Option.none, val_data := Option.none } := by
  simp [setup_fit_assign, h1, h2]

theorem setup_indep_eq (reg : Registry) (m : DEDataModule) (ambient : Nat)
    (h1 : m.val_size.truthy = false) (h2 : optTruthy m.val_batch_size = true) :
    setup_fit_assign reg m ambient =
      Except.ok
        { train_data := Option.some (SplitData.whole (trainDS reg m))
          val_data := Option.some (SplitData.whole
            (get_dataset reg m.val_dataset Option.none m.val_transforms
              m.val_dataset_args)) } := by
  simp [setup_fit_assign, h1, h2]

/-- C3: on fit-stage setup, a configured (truthy) validation size with a
falsy validation batch size skips validation entirely, leaving val_data None
(and creating no split); conversely, with no validation size configured and
a truthy validation batch size, the validation dataset is resolved
independently — from the validation dataset reference with the validation
transforms and validation arguments, with no train flag — rather than being
split from the training dataset, which becomes the train split whole. -/
theorem val_skip_and_independent_resolution (reg : Registry)
    (m : DEDataModule) (ambient : Nat) :
    (m.val_size.truthy = true → optTruthy m.val_batch_size = false →
      setup_fit_assign reg m ambient =
        Except.ok { train_data := Option.none, val_data := Option.none }) ∧
    (m.val_size = ValSize.none → optTruthy m.val_batch_size = true →
      setup_fit_assign reg m ambient =
        Except.ok
          { train_data := Option.some (SplitData.whole (trainDS reg m))
            val_data := Option.some (SplitData.whole
              (get_dataset reg m.val_dataset Option.none m.val_transforms
                m.val_dataset_args)) }) :=
  ⟨fun h1 h2 => setup_skip_eq reg m ambient h1 h2,
   fun h0 h2 => setup_indep_eq reg m ambient (by rw [h0]; rfl) h2⟩

/-- C3 witness: with validation size 5 and validation batch size 0 the setup
assigns nothing; with no validation size and validation batch size 16 the
validation data is the independently resolved whole dataset. -/
theorem val_skip_and_independent_resolution_witness :
    setup_fit_assign regTen (baseModule (ValSize.int 5) (Option.some 0)) 0 =
      Except.ok { train_data := Option.none, val_data := Option.none } ∧
    setup_fit_assign regTen (baseModule ValSize.none (Option.some 16)) 0 =
      Except.ok
        { train_data := Option.some (SplitData.whole
            (trainDS regTen (baseModule ValSize.none (Option.some 16))))
          val_data := Option.some (SplitData.whole
            (get_dataset regTen
              (baseModule ValSize.none (Option.some 16)).val_dataset
              Option.none
              (baseModule ValSize.none (Option.some 16)).val_transforms
              (baseModule ValSize.none (Option.some 16)).val_dataset_args)) } :=
  ⟨(val_skip_and_independent_resolution regTen
      (baseModule (ValSize.int 5) (Option.some 0)) 0).1 (by decide) (by decide),
   (val_skip_and_independent_resolution regTen
      (baseModule ValSize.none (Option.some 16)) 0).2 rfl (by decide)⟩

/-- C4: with a truthy validation size and a falsy validation batch size, the
fit branch of setup assigns neither split — train_data stays None, with no
fallback to the whole training dataset — and setup then fails with a
TypeError when computing dims by indexing the None train split. -/
theorem val_skip_train_none_dims_error (reg : Registry) (m : DEDataModule)
    (ambient : Nat)
    (h1 : m.val_size.truthy = true) (h2 : optTruthy m.val_batch_size = false)
    (h3 : optTruthy m.train_batch_size = true) :
    setup_fit_assign reg m ambient =
      Except.ok { train_data := Option.none, val_data := Option.none } ∧
    setup reg m (Option.some "fit") ambient =
      Except.error "TypeError: NoneType object is not subscriptable" := by
  refine ⟨setup_skip_eq reg m ambient h1 h2, ?_⟩
  simp [setup, h3, setup_skip_eq reg m ambient h1 h2]

/-- C4 witness: validation size 5 with validation batch size 0 over a length
10 dataset leaves train_data unassigned and makes setup raise at the dims
computation. -/
theorem val_skip_train_none_dims_error_witness :
    setup_fit_assign regTen (baseModule (ValSize.int 5) (Option.some 0)) 1 =
      Except.ok { train_data := Option.none, val_data := Option.none } ∧
    setup regTen (baseModule (ValSize.int 5) (Option.some 0))
        (Option.some "fit") 1 =
      Except.error "TypeError: NoneType object is not subscriptable" :=
  val_skip_train_none_dims_error regTen
    (baseModule (ValSize.int 5) (Option.some 0)) 1 (by decide) (by decide)
    (by decide)

/-- C9: the outcome of setup — in particular the index partition of the
random split — does not depend on the ambient default generator state,
because the split seeds a fresh generator with the configured seed and
passes it to random_split explicitly; two runs over the same module and
registry therefore produce identical partitions. -/
theorem setup_ambient_independent (reg : Registry) (m : DEDataModule)
    (stage : Option String) (g1 g2 : Nat) :
    setup reg m stage g1 = setup reg m stage g2 := by
  unfold setup setup_fit_assign random_split
  simp only [Option.getD_some]

/-- C6: construction of the data module fails exactly when the validation
size is invalid — neither None, nor an int, nor a float strictly below 1 —
or all three effective batch sizes are falsy; in particular validation size
1.0 is rejected at construction while validation size 2 is accepted. -/
theorem init_validation_iff :
    (∀ a : InitArgs,
      isOkE (DEDataModule.init a) = false ↔
        (validValSize a.val_size = false ∨
          (optTruthy (effBS a.train_batch_size a.batch_size) = false ∧
           optTruthy (effBS a.val_batch_size a.batch_size) = false ∧
           optTruthy (effBS a.test_batch_size a.batch_size) = false))) ∧
    isOkE (DEDataModule.init argsFloatOne) = false ∧
    isOkE (DEDataModule.init argsInt2) = true := by
  refine ⟨fun a => ?_, ?_, ?_⟩
  · cases hv : validValSize a.val_size <;>
      cases ht : optTruthy (effBS a.train_batch_size a.batch_size) <;>
      cases hvv : optTruthy (effBS a.val_batch_size a.batch_size) <;>
      cases hs : optTruthy (effBS a.test_batch_size a.batch_size) <;>
      simp [DEDataModule.init, isOkE, hv, ht, hvv, hs]
  · unfold DEDataModule.init
    rw [if_pos]
    · rfl
    · show decide ((1 : ℚ) < 1) = false
      simp
  · decide

/-- C7: transform resolution — a wholly unspecified transform defaults to
the tensor conversion transform; a per-split spec, when given, goes through
initialize_transforms unchanged by the defaulting; a dict spec resolves by
registry lookup of its class identifier applied to its keyword arguments; a
list spec resolves each element and composes them in listed order; any
already-built value passes through unchanged. -/
theorem transform_resolution_cases :
    moduleTransform Option.none Option.none = Transform.toTensor ∧
    (∀ (shared : Option TSpec) (spec : TSpec),
      moduleTransform shared (Option.some spec) = init_transforms spec) ∧
    (∀ (cls : String) (args : List (String × Nat)),
      init_transforms (TSpec.dict cls args) = Transform.registry cls args) ∧
    (∀ specs : List TSpec,
      init_transforms (TSpec.list specs)
        = Transform.compose (specs.map init_transforms)) ∧
    (∀ t : Transform, init_transforms (TSpec.obj t) = t) := by
  refine ⟨?_, fun shared spec => rfl, fun cls args => ?_,
    fun specs => init_transforms_list specs, fun t => ?_⟩
  · simp [moduleTransform, init_transforms]
  · simp [init_transforms]
  · simp [init_transforms]

/-- C8: whenever fit-stage setup splits the training dataset (truthy
validation size and batch size), both resulting splits — the validation one
included — are Subsets of the single dataset constructed from the training
reference with the train transform pipeline; the configured validation
transforms appear nowhere in that dataset. -/
theorem val_split_parent_train_transforms (reg : Registry) (m : DEDataModule)
    (ambient : Nat) (s : String)
    (h1 : m.val_size.truthy = true) (h2 : optTruthy m.val_batch_size = true)
    (hn : m.train_dataset = DatasetRef.name s) :
    ∃ ti vi,
      setup_fit_assign reg m ambient =
        Except.ok
          { train_data := Option.some (SplitData.subset
              (PyDataset.constructed s (Option.some true) m.train_transforms
                m.train_dataset_args
                (reg s (Option.some true) m.train_dataset_args)) ti)
            val_data := Option.some (SplitData.subset
              (PyDataset.constructed s (Option.some true) m.train_transforms
                m.train_dataset_args
                (reg s (Option.some true) m.train_dataset_args)) vi) } := by
  have hd : trainDS reg m = PyDataset.constructed s (Option.some true)
      m.train_transforms m.train_dataset_args
      (reg s (Option.some true) m.train_dataset_args) := by
    simp [trainDS, hn, get_dataset]
  have hs := setup_split_eq reg m ambient h1 h2
  rw [hd] at hs
  exact ⟨_, _, hs⟩

/-- C8 witness: with the concrete module the validation split is a Subset of
the dataset built with the train transform (the tensor conversion one), not
with the distinct validation transform. -/
theorem val_split_parent_train_transforms_witness :
    ∃ ti vi,
      setup_fit_assign regTen (baseModule (ValSize.int 3) (Option.some 16)) 5 =
        Except.ok
          { train_data := Option.some (SplitData.subset
              (PyDataset.constructed "mnist" (Option.some true)
                Transform.toTensor [] (regTen "mnist" (Option.some true) []))
              ti)
            val_data := Option.some (SplitData.subset
              (PyDataset.constructed "mnist" (Option.some true)
                Transform.toTensor [] (regTen "mnist" (Option.some true) []))
              vi) } :=
  val_split_parent_train_transforms regTen
    (baseModule (ValSize.int 3) (Option.some 16)) 5 "mnist" (by decide)
    (by decide) rfl

/-- C10: when the effective train, validation and test batch sizes are all
falsy, construction of the data module fails. -/
theorem all_batch_falsy_init_fails (a : InitArgs)
    (h1 : optTruthy (effBS a.train_batch_size a.batch_size) = false)
    (h2 : optTruthy (effBS a.val_batch_size a.batch_size) = false)
    (h3 : optTruthy (effBS a.test_batch_size a.batch_size) = false) :
    isOkE (DEDataModule.init a) = false := by
  unfold DEDataModule.init
  by_cases hv : validValSize a.val_size = false
  · simp [hv, isOkE]
  · simp [hv, h1, h2, h3, isOkE]

/-- C10 witness: a shared batch size of None with no per-split batch size
makes construction fail. -/
theorem all_batch_falsy_init_fails_witness :
    isOkE (DEDataModule.init argsNoBatch) = false :=
  all_batch_falsy_init_fails argsNoBatch (by decide) (by decide) (by decide)

theorem keysOf_pair (k : String) (v : ℚ) : keysOf [(k, v)] = [k] := rfl

theorem step_train_attack (tr : MADETrainer) (batch : Batch)
    (atk : Tensor → Tensor × ℚ × ℚ) (hA : tr.attacker = Option.some atk)
    (lv : ℚ) (hl : dictGet (stepAttackResults tr batch atk) "loss" = Option.some lv) :
    tr.step batch "train" =
      Except.ok
        { grad_enabled := true
          results := stepAttackResults tr batch atk
          logs := (stepAttackResults tr batch atk).map
            (fun p => (p.1 ++ "/" ++ "train", p.2, true, false))
          ret := Option.some lv } := by
  unfold MADETrainer.step
  rw [hA]
  simp only [stepAttackResults] at hl
  simp [hl, stepAttackResults]

theorem step_train_noattack (tr : MADETrainer) (batch : Batch)
    (hA : tr.attacker = Option.none) (lv : ℚ)
    (hl : dictGet (tr.criterion (stepInputs tr batch)) "loss" = Option.some lv) :
    tr.step batch "train" =
      Except.ok
        { grad_enabled := true
          results := tr.criterion (stepInputs tr batch)
          logs := (tr.criterion (stepInputs tr batch)).map
            (fun p => (p.1 ++ "/" ++ "train", p.2, true, false))
          ret := Option.some lv } := by
  unfold MADETrainer.step
  rw [hA]
  simp [hl]

theorem step_val (tr : MADETrainer) (batch : Batch) :
    tr.step batch "val" =
      Except.ok
        { grad_enabled := false
          results := tr.criterion (stepInputs tr batch)
          logs := (tr.criterion (stepInputs tr batch)).map
            (fun p => (p.1 ++ "/" ++ "val", p.2, false, true))
          ret := Option.none } := by
  unfold MADETrainer.step
  cases hA : tr.attacker <;> simp

/-- C5: in the per-batch step, when an attacker is configured and the split
is the training one, the results mapping holds exactly the criterion keys
followed by the three adversarial keys, with adv slash init_loss and
adv slash final_loss the losses the attacker reports and adv slash loss_diff
their difference (final minus initial); when no attacker is configured or
the split is validation, the results mapping is exactly the criterion output
and, as long as the criterion does not itself emit those names, none of the
three keys is present. -/
theorem step_adv_metric_keys (tr : MADETrainer) (batch : Batch) (nm : String)
    (atk : Tensor → Tensor × ℚ × ℚ) :
    (tr.attacker = Option.some atk →
      "adv/init_loss" ∉ keysOf (tr.criterion (atk (stepInputs tr batch)).1) →
      "adv/final_loss" ∉ keysOf (tr.criterion (atk (stepInputs tr batch)).1) →
      "adv/loss_diff" ∉ keysOf (tr.criterion (atk (stepInputs tr batch)).1) →
      (dictGet (tr.criterion (atk (stepInputs tr batch)).1) "loss").isSome = true →
      ∃ out, tr.step batch "train" = Except.ok out ∧
        keysOf out.results
          = keysOf (tr.criterion (atk (stepInputs tr batch)).1) ++ advKeys ∧
        dictGet out.results "adv/init_loss"
          = Option.some (atk (stepInputs tr batch)).2.1 ∧
        dictGet out.results "adv/final_loss"
          = Option.some (atk (stepInputs tr batch)).2.2 ∧
        dictGet out.results "adv/loss_diff"
          = Option.some
              ((atk (stepInputs tr batch)).2.2 - (atk (stepInputs tr batch)).2.1)) ∧
    ((tr.attacker = Option.none ∨ nm = "val") → (nm = "train" ∨ nm = "val") →
      (dictGet (tr.criterion (stepInputs tr batch)) "loss").isSome = true →
      ∃ out, tr.step batch nm = Except.ok out ∧
        out.results = tr.criterion (stepInputs tr batch) ∧
        ("adv/init_loss" ∉ keysOf (tr.criterion (stepInputs tr batch)) →
          "adv/init_loss" ∉ keysOf out.results) ∧
        ("adv/final_loss" ∉ keysOf (tr.criterion (stepInputs tr batch)) →
          "adv/final_loss" ∉ keysOf out.results) ∧
        ("adv/loss_diff" ∉ keysOf (tr.criterion (stepInputs tr batch)) →
          "adv/loss_diff" ∉ keysOf out.results)) := by
  constructor
  · intro hA k1 k2 k3 hloss
    set r := tr.criterion (atk (stepInputs tr batch)).1 with hr
    set iv := (atk (stepInputs tr batch)).2.1 with hiv
    set fv := (atk (stepInputs tr batch)).2.2 with hfv
    have d1 : dictSet r "adv/init_loss" iv = r ++ [("adv/init_loss", iv)] :=
      dictSet_append_of_not_mem _ _ _ k1
    have m2 : ("adv/final_loss" : String)
        ∉ keysOf (r ++ [("adv/init_loss", iv)]) := by
      rw [keysOf_append, keysOf_pair]
      intro h
      rcases List.mem_append.mp h with h | h
      · exact k2 h
      · exact absurd (List.mem_singleton.mp h) (by decide)
    have d2 : dictSet (r ++ [("adv/init_loss", iv)]) "adv/final_loss" fv
        = r ++ [("adv/init_loss", iv)] ++ [("adv/final_loss", fv)] :=
      dictSet_append_of_not_mem _ _ _ m2
    have m3 : ("adv/loss_diff" : String)
        ∉ keysOf (r ++ [("adv/init_loss", iv)] ++ [("adv/final_loss", fv)]) := by
      rw [keysOf_append, keysOf_append, keysOf_pair, keysOf_pair]
      intro h
      rcases List.mem_append.mp h with h | h
      · rcases List.mem_append.mp h with h | h
        · exact k3 h
        · exact absurd (List.mem_singleton.mp h) (by decide)
      · exact absurd (List.mem_singleton.mp h) (by decide)
    have d3 : dictSet (r ++ [("adv/init_loss", iv)] ++ [("adv/final_loss", fv)])
        "adv/loss_diff" (fv - iv)
        = r ++ [("adv/init_loss", iv)] ++ [("adv/final_loss", fv)]
            ++ [("adv/loss_diff", fv - iv)] :=
      dictSet_append_of_not_mem _ _ _ m3
    have hres : stepAttackResults tr batch atk
        = r ++ [("adv/init_loss", iv)] ++ [("adv/final_loss", fv)]
            ++ [("adv/loss_diff", fv - iv)] := by
      unfold stepAttackResults
      rw [← hr, ← hiv, ← hfv, d1, d2, d3]
    have g1 : dictGet (r ++ [("adv/init_loss", iv)]) "loss" = dictGet r "loss" :=
      dictGet_append_of_isSome _ _ _ hloss
    have g2 : dictGet (r ++ [("adv/init_loss", iv)] ++ [("adv/final_loss", fv)])
        "loss" = dictGet r "loss" :=
      (dictGet_append_of_isSome _ _ _ (by rw [g1]; exact hloss)).trans g1
    have g3 : dictGet (r ++ [("adv/init_loss", iv)] ++ [("adv/final_loss", fv)]
        ++ [("adv/loss_diff", fv - iv)]) "loss" = dictGet r "loss" :=
      (dictGet_append_of_isSome _ _ _ (by rw [g2]; exact hloss)).trans g2
    obtain ⟨lv, hlv⟩ : ∃ v, dictGet r "loss" = Option.some v := by
      cases hx : dictGet r "loss" with
      | none => rw [hx] at hloss; exact absurd hloss (by simp)
      | some v => exact ⟨v, rfl⟩
    have q1 : dictGet (r ++ [("adv/init_loss", iv)]) "adv/init_loss"
        = Option.some iv := by
      rw [dictGet_append_of_not_mem _ _ _ k1, dictGet_singleton]
    have q2 : dictGet (r ++ [("adv/init_loss", iv)] ++ [("adv/final_loss", fv)])
        "adv/init_loss" = Option.some iv :=
      (dictGet_append_of_isSome _ _ _ (by rw [q1]; rfl)).trans q1
    have q3 : dictGet (r ++ [("adv/init_loss", iv)] ++ [("adv/final_loss", fv)]
        ++ [("adv/loss_diff", fv - iv)]) "adv/init_loss" = Option.some iv :=
      (dictGet_append_of_isSome _ _ _ (by rw [q2]; rfl)).trans q2
    have p1 : dictGet (r ++ [("adv/init_loss", iv)] ++ [("adv/final_loss", fv)])
        "adv/final_loss" = Option.some fv := by
      rw [dictGet_append_of_not_mem _ _ _ m2, dictGet_singleton]
    have p2 : dictGet (r ++ [("adv/init_loss", iv)] ++ [("adv/final_loss", fv)]
        ++ [("adv/loss_diff", fv - iv)]) "adv/final_loss" = Option.some fv :=
      (dictGet_append_of_isSome _ _ _ (by rw [p1]; rfl)).trans p1
    have s1 : dictGet (r ++ [("adv/init_loss", iv)] ++ [("adv/final_loss", fv)]
        ++ [("adv/loss_diff", fv - iv)]) "adv/loss_diff"
        = Option.some (fv - iv) := by
      rw [dictGet_append_of_not_mem _ _ _ m3, dictGet_singleton]
    refine ⟨_, step_train_attack tr batch atk hA lv (by rw [hres, g3]; exact hlv),
      ?_, ?_, ?_, ?_⟩
    · rw [hres, keysOf_append, keysOf_append, keysOf_append, keysOf_pair,
        keysOf_pair, keysOf_pair, advKeys]
      simp
    · rw [hres]
      exact q3
    · rw [hres]
      exact p2
    · rw [hres]
      exact s1
  · intro hB hnm hloss
    obtain ⟨lv, hlv⟩ : ∃ v, dictGet (tr.criterion (stepInputs tr batch)) "loss"
        = Option.some v := by
      cases hx : dictGet (tr.criterion (stepInputs tr batch)) "loss" with
      | none => rw [hx] at hloss; exact absurd hloss (by simp)
      | some v => exact ⟨v, rfl⟩
    rcases hnm with hnm | hnm
    · subst hnm
      rcases hB with hB | hB
      · exact ⟨_, step_train_noattack tr batch hB lv hlv, rfl,
          fun h => h, fun h => h, fun h => h⟩
      · exact absurd hB (by decide)
    · subst hnm
      exact ⟨_, step_val tr batch, rfl, fun h => h, fun h => h, fun h => h⟩

/-- C5 witness: with a criterion emitting only a loss entry and an attacker
reporting initial loss 2 and final loss 5, the training-split step carries
exactly the loss key plus the three adversarial keys with difference 3,
while the validation-split step carries only the criterion output. -/
theorem step_adv_metric_keys_witness :
    (∃ out, trA.step batchA "train" = Except.ok out ∧
      keysOf out.results = ["loss"] ++ advKeys ∧
      dictGet out.results "adv/loss_diff" = Option.some (5 - 2)) ∧
    (∃ out, trA.step batchA "val" = Except.ok out ∧
      out.results = trA.criterion (stepInputs trA batchA)) := by
  constructor
  · obtain ⟨out, h1, h2, _, _, h5⟩ :=
      (step_adv_metric_keys trA batchA "train" (fun t => (t, 2, 5))).1 rfl
        (by decide) (by decide) (by decide) (by decide)
    exact ⟨out, h1, h2, h5⟩
  · obtain ⟨out, h1, h2, _⟩ :=
      (step_adv_metric_keys trA batchA "val" (fun t => (t, 2, 5))).2
        (Or.inr rfl) (Or.inr rfl) (by decide)
    exact ⟨out, h1, h2⟩

end Made
